import Mathlib

/-!
Verification of the tool-dispatch protocol bridge of the Outlook MCP server.

The definitions below are a shallow embedding of `src/outlook_mcp.py` (the
Microsoft Graph MCP server: `GraphClient`, `initialize_graph_client`,
`handle_call_tool`, `main`) and of `GraphEmailClient.bulk_mark_read` from
`src/outlook_email_client.py`.

Modelling conventions:
* Python/JSON values exchanged through the argument bag and HTTP bodies are
  the inductive `JVal`; Python truthiness is `truthy`.
* The network is an oracle `env : Request → HttpResponse` supplied as a
  parameter; every function that may perform remote calls returns the list of
  `Request`s it actually issued, in order, alongside its result.
* Python exceptions are `Except String`; the messages mirror the `str(e)`
  texts the source interpolates into its error renderings (for exception
  classes whose exact CPython message the claims never inspect, a stable
  stand-in message is used and noted at the definition).
* `datetime` values are `DT` (second precision; `datetime.strptime` with the
  three formats of the source never produces microseconds).
-/

/-- A Python/JSON value as it travels through the MCP argument bag and the
Graph HTTP bodies (Python `None`/`bool`/`int`/`str`/`list`/`dict`). -/
inductive JVal where
  | null
  | bool (b : Bool)
  | num (n : Int)
  | str (s : String)
  | arr (elems : List JVal)
  | obj (fields : List (String × JVal))
deriving Inhabited

/-- Python truthiness of a value (`if x:`). -/
def truthy : JVal → Bool
  | .null => false
  | .bool b => b
  | .num n => n != 0
  | .str s => s != ""
  | .arr es => !es.isEmpty
  | .obj fs => !fs.isEmpty

/-- Python truthiness of an optional attribute (`None` when absent). -/
def truthyO : Option JVal → Bool
  | none => false
  | some v => truthy v

mutual
/-- Python `str()` of a value, as an f-string would render it. For `str` it is
the string itself; containers render Python-`repr` style. -/
def pyStr : JVal → String
  | .null => "None"
  | .bool b => if b then "True" else "False"
  | .num n => toString n
  | .str s => s
  | .arr es => "[" ++ pyStrList es ++ "]"
  | .obj fs => "\x7b" ++ pyStrObj fs ++ "\x7d"

/-- Comma-separated Python `repr` of list elements. -/
def pyStrList : List JVal → String
  | [] => ""
  | [e] => pyRepr e
  | e :: es => pyRepr e ++ ", " ++ pyStrList es

/-- Comma-separated Python `repr` of dict entries. -/
def pyStrObj : List (String × JVal) → String
  | [] => ""
  | [(k, v)] => "\x27" ++ k ++ "\x27: " ++ pyRepr v
  | (k, v) :: fs => "\x27" ++ k ++ "\x27: " ++ pyRepr v ++ ", " ++ pyStrObj fs

/-- Python `repr()` of a value (strings quoted), used inside containers. -/
def pyRepr : JVal → String
  | .str s => "\x27" ++ s ++ "\x27"
  | v => pyStr v
end

/-- Python `dict.get(key, default)` on a `JVal` that must be a dict; a
non-dict receiver raises (`AttributeError`), mirroring e.g. `None.get`. -/
def dictGet (v : JVal) (key : String) (dflt : JVal) : Except String JVal :=
  match v with
  | .obj fs => .ok ((fs.lookup key).getD dflt)
  | _ => .error ("\x27" ++ "object" ++ "\x27 has no attribute \x27get\x27")

/-- Python `dict.get` on the value returned by `_make_request`, which is
`None` for an empty 204 body (`None.get` raises `AttributeError`). -/
def dictGetO (v : Option JVal) (key : String) (dflt : JVal) : Except String JVal :=
  match v with
  | some w => dictGet w key dflt
  | none => .error "\x27NoneType\x27 object has no attribute \x27get\x27"

/-- An outbound HTTP request as `GraphClient._make_request` assembles it:
method string, full URL, the `Authorization` header value, the JSON body
(attached only when truthy) and the query parameters (attached only when
non-empty), with values rendered the way `requests` receives them. -/
structure Request where
  method : String
  url : String
  auth : String
  data : Option JVal
  params : List (String × String)
deriving Inhabited

/-- The remote side's answer to one HTTP request: status code, raw text, and
the JSON-parsed body when the body is non-empty (`response.content`). -/
structure HttpResponse where
  status : Nat
  text : String
  content : Option JVal
deriving Inhabited

/-- Base URL fixed in `GraphClient.__init__`. -/
def base_url : String := "https://graph.microsoft.com/v1.0"

/-- Embedding of `GraphClient._make_request` (src/outlook_mcp.py:33-56).
Raises when no access token is loaded; otherwise issues exactly one request
to the oracle `env`; statuses 200/201/202/204 are success (body or `None`),
anything else raises `API request failed: <status> - <text>`. Returns the
result together with the list of requests actually performed. -/
def makeRequest (token : Option JVal) (env : Request → HttpResponse)
    (method : String) (endpoint : String)
    (data : Option JVal := none) (params : List (String × String) := []) :
    Except String (Option JVal) × List Request :=
  if !truthyO token then
    (.error "No access token available. Please authenticate first.", [])
  else
    let req : Request :=
      { method := method
        url := base_url ++ endpoint
        auth := "Bearer " ++ pyStr ((token).getD .null)
        data := match data with
          | some d => if truthy d then some d else none
          | none => none
        params := params }
    let resp := env req
    (if resp.status == 200 || resp.status == 201 || resp.status == 202 || resp.status == 204 then
      .ok resp.content
     else
      .error ("API request failed: " ++ toString resp.status ++ " - " ++ resp.text), [req])

/-! ## The datetime model

`datetime.strptime` with the three formats of src/outlook_mcp.py:446/455,
`datetime.isoformat`, `strftime`, and `timedelta(days=...)` arithmetic. -/

/-- A `datetime.datetime` at second precision (the three `strptime` formats
of the source never set microseconds). -/
structure DT where
  year : Nat
  month : Nat
  day : Nat
  hour : Nat
  minute : Nat
  second : Nat
deriving DecidableEq, Inhabited, Repr

/-- Leap-year test of the Gregorian calendar (as `calendar.isleap`). -/
def isLeap (y : Nat) : Bool :=
  (y % 4 == 0 && y % 100 != 0) || y % 400 == 0

/-- Days in a month, used by the `datetime` constructor's range check. -/
def daysInMonth (y m : Nat) : Nat :=
  if m = 2 then (if isLeap y then 29 else 28)
  else if m = 4 ∨ m = 6 ∨ m = 9 ∨ m = 11 then 30
  else 31

/-- The range checks the `datetime.datetime` constructor performs
(`MINYEAR = 1`, `MAXYEAR = 9999`); `strptime` raises `ValueError` when they
fail, which the source treats identically to a format mismatch. -/
def validDT (dt : DT) : Prop :=
  1 ≤ dt.year ∧ dt.year ≤ 9999 ∧ 1 ≤ dt.month ∧ dt.month ≤ 12 ∧
  1 ≤ dt.day ∧ dt.day ≤ daysInMonth dt.year dt.month ∧
  dt.hour ≤ 23 ∧ dt.minute ≤ 59 ∧ dt.second ≤ 59

instance (dt : DT) : Decidable (validDT dt) := by
  unfold validDT; infer_instance

/-- Decimal digit test on a character. -/
def isDig (c : Char) : Bool := 48 ≤ c.toNat && c.toNat ≤ 57

/-- Numeric value of a decimal digit character. -/
def digVal (c : Char) : Nat := c.toNat - 48

/-- The decimal digit character for `n ≤ 9`. -/
def dchar (n : Nat) : Char :=
  ['0', '1', '2', '3', '4', '5', '6', '7', '8', '9'].getD n '9'

/-- CPython `_strptime` matching of a 1-2 digit numeric directive such as
`%m` = `(1[0-2]|0[1-9]|[1-9])`: two digits are consumed when they are in the
two-digit range `lo2..hi2`, otherwise one digit is consumed when it is at
least `lo1` (always at most 9). For the directives of the three formats the
following literal is never a digit, so this greedy rule coincides with the
regex's backtracking. -/
def parseNum2 (lo2 hi2 lo1 : Nat) : List Char → Option (Nat × List Char)
  | [] => none
  | c1 :: rest1 =>
    if isDig c1 then
      match rest1 with
      | c2 :: rest2 =>
        if isDig c2 then
          let v := 10 * digVal c1 + digVal c2
          if lo2 ≤ v ∧ v ≤ hi2 then some (v, rest2)
          else if lo1 ≤ digVal c1 then some (digVal c1, rest1) else none
        else if lo1 ≤ digVal c1 then some (digVal c1, rest1) else none
      | [] => if lo1 ≤ digVal c1 then some (digVal c1, []) else none
    else none

/-- CPython `_strptime` matching of `%Y` (`\d\d\d\d`): exactly four digits. -/
def parseYear4 : List Char → Option (Nat × List Char)
  | a :: b :: c :: d :: rest =>
    if isDig a && isDig b && isDig c && isDig d then
      some (1000 * digVal a + 100 * digVal b + 10 * digVal c + digVal d, rest)
    else none
  | _ => none

/-- Consume one literal character of the format string. -/
def parseLit (ch : Char) : List Char → Option (List Char)
  | c :: rest => if c = ch then some rest else none
  | [] => none

/-- Match `%Y<sep1>%m<sep1'>%d<sep2>%H:%M[:%S]` against the whole input
(`strptime` rejects unconverted trailing data). Directive ranges follow
CPython `TimeRE`: `%m` 1-12, `%d` 1-31, `%H` 0-23, `%M` 0-59, `%S` 0-61.
Returns the raw field tuple before the `datetime` constructor check. -/
def parseFormat (sep : Char) (withSeconds : Bool) (l : List Char) :
    Option (Nat × Nat × Nat × Nat × Nat × Nat) :=
  match parseYear4 l with
  | none => none
  | some (y, l) =>
    match parseLit '-' l with
    | none => none
    | some l =>
      match parseNum2 1 12 1 l with
      | none => none
      | some (mo, l) =>
        match parseLit '-' l with
        | none => none
        | some l =>
          match parseNum2 1 31 1 l with
          | none => none
          | some (d, l) =>
            match parseLit sep l with
            | none => none
            | some l =>
              match parseNum2 0 23 0 l with
              | none => none
              | some (h, l) =>
                match parseLit ':' l with
                | none => none
                | some l =>
                  match parseNum2 0 59 0 l with
                  | none => none
                  | some (mi, l) =>
                    if withSeconds then
                      match parseLit ':' l with
                      | none => none
                      | some l =>
                        match parseNum2 0 61 0 l with
                        | none => none
                        | some (s, l) => if l.isEmpty then some (y, mo, d, h, mi, s) else none
                    else
                      if l.isEmpty then some (y, mo, d, h, mi, 0) else none

/-- The `datetime` constructor's range check applied to the raw `strptime`
fields: out-of-range values (year 0, Feb 30, leap second 60/61) raise
`ValueError`, which the source's per-format `except ValueError: continue`
treats exactly like a format mismatch. -/
def mkDatetime (t : Nat × Nat × Nat × Nat × Nat × Nat) : Option DT :=
  let dt : DT := ⟨t.1, t.2.1, t.2.2.1, t.2.2.2.1, t.2.2.2.2.1, t.2.2.2.2.2⟩
  if validDT dt then some dt else none

/-- Embedding of `datetime.strptime(s, fmt)` for one of the three format
strings, as an `Option` (`ValueError` ↦ `none`). -/
def strptime (sep : Char) (withSeconds : Bool) (s : String) : Option DT :=
  match parseFormat sep withSeconds s.data with
  | none => none
  | some t => mkDatetime t

/-- The datetime-parsing loop of `handle_call_tool`
(src/outlook_mcp.py:446-451 and 455-460): the formats
`%Y-%m-%dT%H:%M:%S`, `%Y-%m-%d %H:%M:%S`, `%Y-%m-%dT%H:%M` are tried in
order and the first that parses wins. -/
def parseDatetime (s : String) : Option DT :=
  match strptime 'T' true s with
  | some dt => some dt
  | none =>
    match strptime ' ' true s with
    | some dt => some dt
    | none => strptime 'T' false s

/-- Python `s.replace("Z", "")` (removes every occurrence of the
one-character pattern). -/
def removeZ (s : String) : String := String.mk (s.data.filter (fun c => c ≠ 'Z'))

/-- Two-digit zero-padded decimal rendering, for `n ≤ 99`. -/
def pad2 (n : Nat) : List Char := [dchar (n / 10), dchar (n % 10)]

/-- Four-digit zero-padded decimal rendering, for `n ≤ 9999`. -/
def pad4 (n : Nat) : List Char :=
  [dchar (n / 1000), dchar (n / 100 % 10), dchar (n / 10 % 10), dchar (n % 10)]

/-- Python `datetime.isoformat()` for a microsecond-free value:
`YYYY-MM-DDTHH:MM:SS`. -/
def isoformat (dt : DT) : String :=
  String.mk (pad4 dt.year ++ '-' :: pad2 dt.month ++ '-' :: pad2 dt.day ++
    'T' :: pad2 dt.hour ++ ':' :: pad2 dt.minute ++ ':' :: pad2 dt.second)

/-- Python `dt.strftime("%Y-%m-%d %H:%M")`. -/
def strftimeYMDHM (dt : DT) : String :=
  String.mk (pad4 dt.year ++ '-' :: pad2 dt.month ++ '-' :: pad2 dt.day ++
    ' ' :: pad2 dt.hour ++ ':' :: pad2 dt.minute)

/-- Python `dt.strftime("%H:%M")`. -/
def strftimeHM (dt : DT) : String :=
  String.mk (pad2 dt.hour ++ ':' :: pad2 dt.minute)

/-- An instant written in the seconds-precision ISO-like accepted format
`%Y-%m-%dT%H:%M:%S` (zero-padded, as `strftime` would write it). -/
def writeFmtSecT (dt : DT) : String := isoformat dt

/-- An instant written in the space-separated accepted format
`%Y-%m-%d %H:%M:%S`. -/
def writeFmtSecSp (dt : DT) : String :=
  String.mk (pad4 dt.year ++ '-' :: pad2 dt.month ++ '-' :: pad2 dt.day ++
    ' ' :: pad2 dt.hour ++ ':' :: pad2 dt.minute ++ ':' :: pad2 dt.second)

/-- An instant written in the minute-precision accepted format
`%Y-%m-%dT%H:%M` (only expresses instants whose seconds are zero). -/
def writeFmtMin (dt : DT) : String :=
  String.mk (pad4 dt.year ++ '-' :: pad2 dt.month ++ '-' :: pad2 dt.day ++
    'T' :: pad2 dt.hour ++ ':' :: pad2 dt.minute)

/-- Day number of a civil date (days since 1970-01-01, Howard Hinnant's
`days_from_civil`), the arithmetic behind `timedelta(days=...)`. -/
def daysFromCivil (y0 : Int) (m d : Nat) : Int :=
  let y : Int := if m ≤ 2 then y0 - 1 else y0
  let era : Int := Int.fdiv y 400
  let yoe : Nat := (y - era * 400).toNat
  let mp : Nat := if 2 < m then m - 3 else m + 9
  let doy : Nat := (153 * mp + 2) / 5 + d - 1
  let doe : Nat := yoe * 365 + yoe / 4 - yoe / 100 + doy
  era * 146097 + (doe : Int) - 719468

/-- Civil date of a day number (Hinnant's `civil_from_days`). -/
def civilFromDays (z0 : Int) : Int × Nat × Nat :=
  let z : Int := z0 + 719468
  let era : Int := Int.fdiv z 146097
  let doe : Nat := (z - era * 146097).toNat
  let yoe : Nat := (doe - doe / 1460 + doe / 36524 - doe / 146096) / 365
  let y : Int := (yoe : Int) + era * 400
  let doy : Nat := doe - (365 * yoe + yoe / 4 - yoe / 100)
  let mp : Nat := (5 * doy + 2) / 153
  let d : Nat := doy - (153 * mp + 2) / 5 + 1
  let m : Nat := if mp < 10 then mp + 3 else mp - 9
  (if m ≤ 2 then y + 1 else y, m, d)

/-- Python `dt + timedelta(days=n)` (time of day unchanged): `none` models
the `OverflowError("date value out of range")` that `datetime` addition
raises whenever the shifted date falls outside years 1..9999
(`MINYEAR`..`MAXYEAR`). -/
def addDays (dt : DT) (n : Int) : Option DT :=
  let c := civilFromDays (daysFromCivil (dt.year : Int) dt.month dt.day + n)
  if 1 ≤ c.1 ∧ c.1 ≤ 9999 then
    some { dt with year := c.1.toNat, month := c.2.1, day := c.2.2 }
  else none

/-! ## The Graph client (src/outlook_mcp.py:23-160) -/

/-- The `GraphClient` object: credentials from the constructor, plus the
access token later loaded by `initialize_graph_client` (the raw JSON value
of the token file's `access_token` field, or `None`). -/
structure GraphClient where
  client_id : String
  client_secret : String
  tenant_id : String
  access_token : Option JVal
deriving Inhabited

/-- Embedding of `GraphClient.get_messages` (src/outlook_mcp.py:59-74):
`GET /me/mailFolders/<folder>/messages` with `$top`, fixed `$orderby`, and
the optional quoted `$search` and `$filter`, in that insertion order. -/
def GraphClient.get_messages (c : GraphClient) (env : Request → HttpResponse)
    (folder_id : String := "inbox") (top : Int := 50)
    (search : Option String := none) (filter_str : Option String := none) :
    Except String (Option JVal) × List Request :=
  let params := [("$top", toString top), ("$orderby", "receivedDateTime desc")]
  let params := match search with
    | some q => params ++ [("$search", "\"" ++ q ++ "\"")]
    | none => params
  let params := match filter_str with
    | some f => params ++ [("$filter", f)]
    | none => params
  makeRequest c.access_token env "GET" ("/me/mailFolders/" ++ folder_id ++ "/messages")
    none params

/-- Embedding of `GraphClient.search_messages` (src/outlook_mcp.py:102-104):
a search against the inbox. -/
def GraphClient.search_messages (c : GraphClient) (env : Request → HttpResponse)
    (query : String) (top : Int := 25) :
    Except String (Option JVal) × List Request :=
  c.get_messages env "inbox" top (some query) none

/-- Embedding of `GraphClient.get_events` (src/outlook_mcp.py:107-116):
`GET /me/events` with `$top`, fixed ascending `$orderby`, and the date-range
`$filter` when both bounds are given (and non-empty, Python truthiness). -/
def GraphClient.get_events (c : GraphClient) (env : Request → HttpResponse)
    (start_date : Option String := none) (end_date : Option String := none)
    (top : Int := 50) : Except String (Option JVal) × List Request :=
  let params := [("$top", toString top), ("$orderby", "start/dateTime")]
  let params := match start_date, end_date with
    | some sd, some ed =>
      if sd ≠ "" ∧ ed ≠ "" then
        params ++ [("$filter",
          "start/dateTime ge \x27" ++ sd ++ "\x27 and end/dateTime le \x27" ++ ed ++ "\x27")]
      else params
    | _, _ => params
  makeRequest c.access_token env "GET" "/me/events" none params

/-- Attendee expansion of `GraphClient.create_event`
(src/outlook_mcp.py:145-154): address plus display name derived from the
local part of the address (`email.split("@")[0]`). -/
def attendeeEntry (email : String) : JVal :=
  .obj [("emailAddress", .obj [("address", .str email),
                               ("name", .str ((email.splitOn "@").headD ""))]),
        ("type", .str "required")]

/-- Iterating the attendee list of `create_event`: the list comprehension
requires a list of strings; anything else raises before the remote call
(a `TypeError`/`AttributeError` whose exact CPython message no claim
inspects). -/
def attendeeList (v : JVal) : Except String (List JVal) :=
  match v with
  | .arr es =>
    es.mapM (fun e => match e with
      | .str s => .ok (attendeeEntry s)
      | _ => .error "\x27object\x27 has no attribute \x27split\x27")
  | _ => .error "object is not iterable"

/-- Embedding of `GraphClient.create_event` (src/outlook_mcp.py:118-156):
builds the event body (subject, start/end with time zone, then optional
body, location and attendees, in that insertion order) and issues
`POST /me/events`. `subject`, `body` and `location` are the raw argument
values, placed into the JSON body unconverted, exactly as the source does. -/
def GraphClient.create_event (c : GraphClient) (env : Request → HttpResponse)
    (subject : JVal) (start_time end_time : DT)
    (body : Option JVal := none) (location : Option JVal := none)
    (attendees : Option JVal := none) (timezone_name : String := "UTC") :
    Except String (Option JVal) × List Request :=
  let event_data : List (String × JVal) :=
    [("subject", subject),
     ("start", .obj [("dateTime", .str (isoformat start_time)),
                     ("timeZone", .str timezone_name)]),
     ("end", .obj [("dateTime", .str (isoformat end_time)),
                   ("timeZone", .str timezone_name)])]
  let event_data := if truthyO body then
      event_data ++ [("body", .obj [("contentType", .str "text"),
                                    ("content", body.getD .null)])]
    else event_data
  let event_data := if truthyO location then
      event_data ++ [("location", .obj [("displayName", location.getD .null)])]
    else event_data
  if truthyO attendees then
    match attendeeList (attendees.getD .null) with
    | .error e => (.error e, [])
    | .ok entries =>
      makeRequest c.access_token env "POST" "/me/events"
        (some (.obj (event_data ++ [("attendees", .arr entries)]))) []
  else
    makeRequest c.access_token env "POST" "/me/events" (some (.obj event_data)) []

/-- Embedding of `GraphClient.get_user_info` (src/outlook_mcp.py:158-160). -/
def GraphClient.get_user_info (c : GraphClient) (env : Request → HttpResponse) :
    Except String (Option JVal) × List Request :=
  makeRequest c.access_token env "GET" "/me" none []

/-! ## Rendering helpers of `handle_call_tool` -/

/-- Exactly two digits (used by `datetime.fromisoformat`, which accepts only
zero-padded fields). -/
def parse2exact : List Char → Option (Nat × List Char)
  | a :: b :: rest =>
    if isDig a && isDig b then some (10 * digVal a + digVal b, rest) else none
  | _ => none

/-- Time-of-day and optional fraction/offset tail of an ISO string, for
`datetime.fromisoformat`: `HH[:MM[:SS[.fff[fff]]]][±HH:MM]`. The fraction
and offset are validated and discarded (the source only ever re-renders the
wall-clock fields). -/
def parseIsoTail (l : List Char) : Option (Nat × Nat × Nat) :=
  match parse2exact l with
  | none => none
  | some (h, l) =>
    let rest : Nat × Nat × List Char :=
      match l with
      | ':' :: l2 =>
        match parse2exact l2 with
        | none => (0, 0, ':' :: l2)
        | some (mi, l3) =>
          match l3 with
          | ':' :: l4 =>
            match parse2exact l4 with
            | none => (mi, 0, l3)
            | some (s, l5) =>
              match l5 with
              | '.' :: l6 =>
                let digs := l6.takeWhile isDig
                if digs.length = 3 ∨ digs.length = 6 then
                  (mi, s, l6.drop digs.length)
                else (mi, s, l5)
              | _ => (mi, s, l5)
          | _ => (mi, 0, l3)
      | _ => (0, 0, l)
    match rest with
    | (mi, s, []) => some (h, mi, s)
    | (mi, s, sign :: l2) =>
      if sign = '+' ∨ sign = '-' then
        match parse2exact l2 with
        | none => none
        | some (_, l3) =>
          match l3 with
          | ':' :: l4 =>
            match parse2exact l4 with
            | none => none
            | some (_, []) => some (h, mi, s)
            | some (_, _) => none
          | _ => none
      else none

/-- Embedding of `datetime.fromisoformat` on the strings the renderers feed
it (`<date>[<sep><time>[offset]]` with zero-padded fields); invalid input is
`none` (the source wraps every use in a bare `try/except`). -/
def fromisoformatOpt (s : String) : Option DT :=
  match parseYear4 s.data with
  | none => none
  | some (y, l) =>
    match parseLit '-' l with
    | none => none
    | some l =>
      match parse2exact l with
      | none => none
      | some (mo, l) =>
        match parseLit '-' l with
        | none => none
        | some l =>
          match parse2exact l with
          | none => none
          | some (d, l) =>
            match l with
            | [] => mkDatetime (y, mo, d, 0, 0, 0)
            | _ :: l2 =>
              match parseIsoTail l2 with
              | none => none
              | some (h, mi, s2) => mkDatetime (y, mo, d, h, mi, s2)

/-- One block of the email summary (src/outlook_mcp.py:343-364): subject,
sender, formatted date (falling back to the raw value when
`fromisoformat` fails), read marker and truncated preview. Raises
(`AttributeError`) when a field that is `.get`-chained is not a dict, as the
source would outside any `try`. -/
def renderEmail (email : JVal) : Except String String := do
  let fromV ← dictGet email "from" (.obj [])
  let emailAddrV ← dictGet fromV "emailAddress" (.obj [])
  let from_addr ← dictGet emailAddrV "address" (.str "Unknown")
  let subject ← dictGet email "subject" (.str "No subject")
  let received ← dictGet email "receivedDateTime" (.str "Unknown")
  let is_read ← dictGet email "isRead" (.bool false)
  let preview ← dictGet email "bodyPreview" (.str "")
  let formatted_date : String :=
    match received with
    | .str s =>
      match fromisoformatOpt (s.replace "Z" "+00:00") with
      | some dt => strftimeYMDHM dt
      | none => s
    | v => pyStr v
  match preview with
  | .str p =>
    .ok ("📧 **" ++ pyStr subject ++ "**\n   From: " ++ pyStr from_addr ++
      "\n   Date: " ++ formatted_date ++
      "\n   Status: " ++ (if truthy is_read then "✅ Read" else "🔴 Unread") ++
      "\n   Preview: " ++ p.take 150 ++ (if p.length > 150 then "..." else "") ++ "\n")
  | _ => .error "unsupported operand for preview slice"

/-- One block of the event summary (src/outlook_mcp.py:401-428): subject,
same-day-compressed time window (raw `start - end` strings when parsing
fails), location and the attendee address list (omitted when empty). -/
def renderEvent (event : JVal) : Except String String := do
  let subject ← dictGet event "subject" (.str "No title")
  let startV ← dictGet event "start" (.obj [])
  let start_dt ← dictGet startV "dateTime" (.str "")
  let endV ← dictGet event "end" (.obj [])
  let end_dt ← dictGet endV "dateTime" (.str "")
  let locV ← dictGet event "location" (.obj [])
  let location ← dictGet locV "displayName" (.str "No location")
  let attendees ← dictGet event "attendees" (.arr [])
  let time_str : String :=
    match start_dt, end_dt with
    | .str ss, .str es =>
      match fromisoformatOpt (ss.replace "Z" "+00:00"),
            fromisoformatOpt (es.replace "Z" "+00:00") with
      | some st, some en =>
        if st.year = en.year ∧ st.month = en.month ∧ st.day = en.day then
          strftimeYMDHM st ++ " - " ++ strftimeHM en
        else
          strftimeYMDHM st ++ " - " ++ strftimeYMDHM en
      | _, _ => ss ++ " - " ++ es
    | v, w => pyStr v ++ " - " ++ pyStr w
  let attendee_list ←
    match attendees with
    | .arr as_ => as_.mapM (fun att => do
        let ea ← dictGet att "emailAddress" (.obj [])
        dictGet ea "address" (.str ""))
    | _ => Except.error "object is not iterable"
  let attendee_text ←
    if attendee_list.isEmpty then pure ""
    else do
      let addrs ← attendee_list.mapM (fun v => match v with
        | .str s => Except.ok s
        | _ => Except.error "sequence item: expected str instance")
      pure ("\n   Attendees: " ++ String.intercalate ", " addrs)
  .ok ("📅 **" ++ pyStr subject ++ "**\n   When: " ++ time_str ++
    "\n   Where: " ++ pyStr location ++ attendee_text ++ "\n")

/-- The user-info rendering (src/outlook_mcp.py:490-501), with placeholder
defaults for absent fields and the guarded first business phone. -/
def renderUserInfo (user : Option JVal) : Except String String := do
  let displayName ← dictGetO user "displayName" (.str "N/A")
  let upn ← dictGetO user "userPrincipalName" (.str "N/A")
  let mail ← dictGetO user "mail" upn
  let jobTitle ← dictGetO user "jobTitle" (.str "N/A")
  let office ← dictGetO user "officeLocation" (.str "N/A")
  let phoneCond ← dictGetO user "businessPhones" .null
  let phone ←
    if truthy phoneCond then
      match phoneCond with
      | .arr (x :: _) => Except.ok (pyStr x)
      | .str s => Except.ok (String.mk (s.data.take 1))
      | _ => Except.error "object is not subscriptable"
    else Except.ok "N/A"
  .ok ("👤 **User Information**\n   Name: " ++ pyStr displayName ++
    "\n   Email: " ++ pyStr mail ++
    "\n   Job Title: " ++ pyStr jobTitle ++
    "\n   Office: " ++ pyStr office ++
    "\n   Phone: " ++ phone)

/-! ## The tool dispatcher (src/outlook_mcp.py:314-513) -/

/-- The uniform not-authenticated error text returned before any remote call
when no client or no access token is present (src/outlook_mcp.py:318-322). -/
def notAuthenticatedText : String :=
  "❌ Not authenticated with Microsoft Graph. Please run the authentication script first and ensure your access token is saved."

/-- Look up an argument of the untyped bag (`arguments.get(key)`):
`none` plays Python's `None` for an absent key. -/
def argGet (args : List (String × JVal)) (key : String) : Option JVal :=
  args.lookup key

/-- Python `arguments.get(key, default)`. -/
def argGetD (args : List (String × JVal)) (key : String) (dflt : JVal) : JVal :=
  (args.lookup key).getD dflt

/-- Python `arguments[key]`: `KeyError` when absent, whose `str()` is the
quoted key, which is what the outer handler interpolates. -/
def argRequired (args : List (String × JVal)) (key : String) : Except String JVal :=
  match args.lookup key with
  | some v => .ok v
  | none => .error ("\x27" ++ key ++ "\x27")

/-- A value usable as a Python `int` by `min(..., bound)`: an `int` or a
`bool` (which is an `int` subclass); anything else raises `TypeError`
(whose exact CPython message no claim inspects). -/
def asPyInt : JVal → Except String Int
  | .num n => .ok n
  | .bool b => .ok (if b then 1 else 0)
  | _ => .error "\x27<\x27 not supported between instances"

/-- Python `", ".join(xs)` over the raw attendee list of the success text
(src/outlook_mcp.py:480): every element must be a string. -/
def joinComma (v : JVal) : Except String String :=
  match v with
  | .arr es => do
    let ss ← es.mapM (fun e => match e with
      | .str s => Except.ok s
      | _ => Except.error "sequence item: expected str instance")
    pure (String.intercalate ", " ss)
  | _ => .error "can only join an iterable"

/-- The pure continuation of the `get_emails` branch after the remote call
(src/outlook_mcp.py:334-370): everything from `result.get("value", [])` on
is rendering and performs no further network activity, so it is factored
out of the call-collecting dispatcher. -/
def emailsText (search : JVal) (result : Except String (Option JVal)) :
    Except String String :=
  match result with
  | .error e => .error e
  | .ok r =>
    match dictGetO r "value" (.arr []) with
    | .error e => .error e
    | .ok emails =>
      let search_text :=
        if truthy search then " matching \x27" ++ pyStr search ++ "\x27" else ""
      if ¬ truthy emails then
        .ok ("📧 No emails found" ++ search_text ++ ".")
      else
        match emails with
        | .arr es =>
          match es.mapM renderEmail with
          | .error e => .error e
          | .ok summaries =>
            .ok ("📧 Found " ++ toString es.length ++ " emails" ++ search_text ++
              ":\n\n" ++ String.intercalate "\n" summaries)
        | _ => .error "object is not iterable"

/-- The pure continuation of the `get_calendar_events` branch after the
remote call (src/outlook_mcp.py:393-433). -/
def eventsText (days : Int) (result : Except String (Option JVal)) :
    Except String String :=
  match result with
  | .error e => .error e
  | .ok r =>
    match dictGetO r "value" (.arr []) with
    | .error e => .error e
    | .ok events =>
      if ¬ truthy events then
        .ok ("📅 No events found in the next " ++ toString days ++ " days.")
      else
        match events with
        | .arr es =>
          match es.mapM renderEvent with
          | .error e => .error e
          | .ok summaries =>
            .ok ("📅 Found " ++ toString es.length ++ " events in the next " ++
              toString days ++ " days:\n\n" ++ String.intercalate "\n" summaries)
        | _ => .error "object is not iterable"

/-- The pure continuation of the `create_calendar_event` branch after the
remote call (src/outlook_mcp.py:480-488): the success text with its optional
location and attendee lines. -/
def createdText (subject : JVal) (start_time end_time : DT)
    (location attendees : Option JVal) (result : Except String (Option JVal)) :
    Except String String :=
  match result with
  | .error e => .error e
  | .ok _ =>
    let location_text :=
      if truthyO location then "\n   Location: " ++ pyStr (location.getD .null)
      else ""
    match (if truthyO attendees then
             (joinComma (attendees.getD .null)).map (fun j => "\n   Attendees: " ++ j)
           else .ok "") with
    | .error e => .error e
    | .ok attendee_text =>
      .ok ("✅ Calendar event created successfully!\n   Title: " ++
        pyStr subject ++ "\n   When: " ++ strftimeYMDHM start_time ++
        " - " ++ strftimeHM end_time ++ location_text ++ attendee_text)

/-- The pure continuation of the `get_user_info` branch after the remote
call (src/outlook_mcp.py:490-501). -/
def userText (result : Except String (Option JVal)) : Except String String :=
  match result with
  | .error e => .error e
  | .ok user => renderUserInfo user

/-- The body of the `try` of `handle_call_tool` (src/outlook_mcp.py:324-507):
dispatch on the tool name, validate and normalize arguments, perform the
remote call(s), and render. `Except.error e` is an uncaught Python exception
reaching the outer `except` with `str(e) = e`; the issued requests are
returned alongside. `now` is the value of `datetime.now()`. -/
def dispatchTool (c : GraphClient) (env : Request → HttpResponse) (now : DT)
    (name : String) (args : List (String × JVal)) :
    Except String String × List Request :=
  if name = "get_emails" then
    match asPyInt (argGetD args "count" (.num 10)) with
    | .error e => (.error e, [])
    | .ok n =>
      let count : Int := min n 50
      let search := argGetD args "search" .null
      let E :=
        if truthy search then c.search_messages env (pyStr search) count
        else c.get_messages env "inbox" count none none
      (emailsText search E.1, E.2)
  else if name = "get_calendar_events" then
    match asPyInt (argGetD args "days" (.num 7)) with
    | .error e => (.error e, [])
    | .ok nd =>
      match asPyInt (argGetD args "count" (.num 20)) with
      | .error e => (.error e, [])
      | .ok nc =>
        let days : Int := min nd 30
        let count : Int := min nc 50
        let start_date := isoformat now ++ "Z"
        match addDays now days with
        | none =>
          -- `datetime.now() + timedelta(days=days)` (src/outlook_mcp.py:385)
          -- raises OverflowError before any remote call; the outer handler
          -- renders its message.
          (.error "date value out of range", [])
        | some nowPlus =>
          let end_date := isoformat nowPlus ++ "Z"
          let E := c.get_events env (some start_date) (some end_date) count
          (eventsText days E.1, E.2)
  else if name = "create_calendar_event" then
    match argRequired args "subject" with
    | .error e => (.error e, [])
    | .ok subject =>
      match argRequired args "start_time" with
      | .error e => (.error e, [])
      | .ok stV =>
        match argRequired args "end_time" with
        | .error e => (.error e, [])
        | .ok etV =>
          let location := argGet args "location"
          let description := argGet args "description"
          let attendees := argGet args "attendees"
          match stV, etV with
          | .str st_s, .str et_s =>
            match parseDatetime (removeZ st_s) with
            | none =>
              (.ok ("❌ Error parsing datetime: Could not parse start time: " ++ st_s ++
                "\nPlease use format like: 2025-08-14T14:00:00"), [])
            | some start_time =>
              match parseDatetime (removeZ et_s) with
              | none =>
                (.ok ("❌ Error parsing datetime: Could not parse end time: " ++ et_s ++
                  "\nPlease use format like: 2025-08-14T14:00:00"), [])
              | some end_time =>
                let E :=
                  c.create_event env subject start_time end_time
                    description location attendees "UTC"
                (createdText subject start_time end_time location attendees E.1, E.2)
          | _, _ =>
            -- `start_time_str.replace('Z', '')` on a non-string raises
            -- `AttributeError`, reaching the outer handler.
            (.error "\x27object\x27 has no attribute \x27replace\x27", [])
  else if name = "get_user_info" then
    let E := c.get_user_info env
    (userText E.1, E.2)
  else
    (.ok ("❌ Unknown tool: " ++ name), [])

/-- Embedding of `handle_call_tool` (src/outlook_mcp.py:314-513): the
authentication guard, then the `try` body with every exception converted at
the boundary into the `❌ Error executing <name>: <e>` text. The returned
string is the text of the single `TextContent` of the source's result list;
the second component lists the remote requests performed, in order. -/
def handle_call_tool (gc : Option GraphClient) (env : Request → HttpResponse)
    (now : DT) (name : String) (args : List (String × JVal)) :
    String × List Request :=
  match gc with
  | none => (notAuthenticatedText, [])
  | some c =>
    if ¬ truthyO c.access_token then (notAuthenticatedText, [])
    else
      let R := dispatchTool c env now name args
      (match R.1 with
       | .ok t => t
       | .error e => "❌ Error executing " ++ name ++ ": " ++ e, R.2)

/-! ## Startup (src/outlook_mcp.py:168-195 and 515-539) -/

/-- Embedding of `initialize_graph_client`: `client_id`/`client_secret` come
from the environment (`none` or `""` are falsy); `token_file` is `none` when
`~/.outlook_token.json` does not exist, `some none` when it exists but
`json.load` raises, and `some (some j)` when it parses to `j`. Returns the
resulting global `graph_client` and the boolean the function returns. A
parsed non-dict makes `token_data.get` raise, which the `except` turns into
the no-valid-token fallthrough (the client object was already assigned). -/
def initialize_graph_client (client_id client_secret : Option String)
    (token_file : Option (Option JVal)) : Option GraphClient × Bool :=
  if client_id.getD "" = "" ∨ client_secret.getD "" = "" then
    (none, false)
  else
    let gc : GraphClient :=
      { client_id := client_id.getD ""
        client_secret := client_secret.getD ""
        tenant_id := "common"
        access_token := none }
    match token_file with
    | some (some (.obj fs)) =>
      (some { gc with access_token := fs.lookup "access_token" }, true)
    | some _ => (some gc, false)
    | none => (some gc, false)

/-- Embedding of the startup decision of `main` (src/outlook_mcp.py:519-521):
when `initialize_graph_client` returns `False`, `main` calls `sys.exit(1)`
and the MCP server never serves; it starts serving exactly when the
returned flag is `True`. -/
def main_starts_serving (client_id client_secret : Option String)
    (token_file : Option (Option JVal)) : Bool :=
  (initialize_graph_client client_id client_secret token_file).2

/-! ## Bulk mark-as-read (src/outlook_email_client.py:260-263 and 332-341) -/

/-- One per-item outcome record of `bulk_mark_read`: the Python dict
`{"id": ..., "success": True, "result": ...}` or
`{"id": ..., "success": False, "error": ...}`. -/
structure BulkOutcome where
  id : String
  success : Bool
  result : Option (Option JVal)
  error : Option String
deriving Inhabited

/-- Embedding of `GraphEmailClient.mark_as_read`
(src/outlook_email_client.py:260-263): `PATCH /me/messages/<id>` with body
`{"isRead": true}` (the email client's `_make_request` is byte-identical to
the MCP server's, so `makeRequest` is reused). -/
def mark_as_read (token : Option JVal) (env : Request → HttpResponse)
    (message_id : String) : Except String (Option JVal) × List Request :=
  makeRequest token env "PATCH" ("/me/messages/" ++ message_id)
    (some (.obj [("isRead", .bool true)])) []

/-- The per-item step of `bulk_mark_read`: `try` the single mark, collect a
success record or an error record. -/
def bulkStep (token : Option JVal) (env : Request → HttpResponse)
    (msg_id : String) : BulkOutcome :=
  match (mark_as_read token env msg_id).1 with
  | .ok r => { id := msg_id, success := true, result := some r, error := none }
  | .error e => { id := msg_id, success := false, result := none, error := some e }

/-- Embedding of `GraphEmailClient.bulk_mark_read`
(src/outlook_email_client.py:332-341): the sequential loop appending one
outcome record per message id. -/
def bulk_mark_read (token : Option JVal) (env : Request → HttpResponse)
    (message_ids : List String) : List BulkOutcome :=
  message_ids.foldl (fun results msg_id => results ++ [bulkStep token env msg_id]) []

/-! ## Shared concrete fixtures for witnesses and counterexamples -/

/-- An oracle whose every response is a 200 with an empty `value` list. -/
def envEmptyOk : Request → HttpResponse := fun _ =>
  { status := 200, text := "", content := some (.obj [("value", .arr [])]) }

/-- A client with a loaded (truthy) access token. -/
def gcTok : GraphClient :=
  { client_id := "id", client_secret := "secret", tenant_id := "common",
    access_token := some (.str "tok") }

/-- A fixed `datetime.now()` value. -/
def now0 : DT := ⟨2025, 8, 14, 14, 0, 0⟩

/-! ## C1 — unknown tool -/

/-- C1 (counterexample): as stated the claim is false, because the
authentication guard precedes the catalog lookup: with no client loaded, an
invocation of the unknown tool `bogus` returns the uniform not-authenticated
text, not the `UnknownTool` error. -/
theorem C1_counterexample :
    (handle_call_tool none envEmptyOk now0 "bogus" []).1 ≠ "❌ Unknown tool: bogus" ∧
    (handle_call_tool none envEmptyOk now0 "bogus" []).1 = notAuthenticatedText := by
  constructor
  · decide
  · rfl

/-- C1 (amended): provided a client with a truthy access token is loaded,
every invocation whose tool name is none of the four catalog names returns
the `❌ Unknown tool: <name>` error text, performs no remote call, and (being
a value of the total dispatcher) never throws past the boundary. -/
theorem C1_unknown_tool (c : GraphClient) (env : Request → HttpResponse)
    (now : DT) (name : String) (args : List (String × JVal))
    (hauth : truthyO c.access_token = true)
    (h1 : name ≠ "get_emails") (h2 : name ≠ "get_calendar_events")
    (h3 : name ≠ "create_calendar_event") (h4 : name ≠ "get_user_info") :
    handle_call_tool (some c) env now name args = ("❌ Unknown tool: " ++ name, []) := by
  simp [handle_call_tool, dispatchTool, hauth, h1, h2, h3, h4]

/-- C1 (witness): the amended theorem applied at the authenticated client
and the concrete unknown tool name `bogus`. -/
theorem C1_witness :
    handle_call_tool (some gcTok) envEmptyOk now0 "bogus" [] =
      ("❌ Unknown tool: " ++ "bogus", []) :=
  C1_unknown_tool gcTok envEmptyOk now0 "bogus" [] rfl
    (by decide) (by decide) (by decide) (by decide)

/-! ## C2 — startup requires a credential -/

/-- C2 (counterexample): a token file that parses as a JSON object with no
`access_token` field makes `initialize_graph_client` report success — so
`main` starts serving — while the loaded client has no access token at all,
contradicting the claim that serving implies a non-empty loaded token. -/
theorem C2_counterexample :
    initialize_graph_client (some "id") (some "sec") (some (some (.obj []))) =
      (some { client_id := "id", client_secret := "sec", tenant_id := "common",
              access_token := none }, true) ∧
    main_starts_serving (some "id") (some "sec") (some (some (.obj []))) = true := by
  constructor <;> rfl

/-- C2 (amended): the process exits non-zero before serving exactly when an
environment credential is missing or the token file is absent or
unparsable-as-a-dict; equivalently, serving starts if and only if both
environment variables are non-empty and the token file parses to a JSON
object — which, however, need not contain any access token (each tool call
is then rejected by the per-call guard instead). -/
theorem C2_startup (client_id client_secret : Option String)
    (token_file : Option (Option JVal)) :
    main_starts_serving client_id client_secret token_file = true ↔
      (client_id.getD "" ≠ "" ∧ client_secret.getD "" ≠ "" ∧
       ∃ fs, token_file = some (some (.obj fs))) := by
  unfold main_starts_serving initialize_graph_client
  by_cases h : client_id.getD "" = "" ∨ client_secret.getD "" = ""
  · simp only [if_pos h]
    constructor
    · intro hfalse; exact absurd hfalse (by simp)
    · rintro ⟨h1, h2, _⟩; exact absurd h (by tauto)
  · simp only [if_neg h]
    push_neg at h
    match token_file with
    | none => simp
    | some none => simp
    | some (some (.null)) => simp
    | some (some (.bool b)) => simp
    | some (some (.num n)) => simp
    | some (some (.str s)) => simp
    | some (some (.arr es)) => simp
    | some (some (.obj fs)) => simp [h]

/-! ## C3 — uniform not-authenticated error -/

/-- C3: whenever no client is loaded or the loaded client's access token is
falsy, `handle_call_tool` returns the one fixed not-authenticated text —
identical for every tool name and argument bag — and performs no remote
call. -/
theorem C3_unauthenticated (gc : Option GraphClient) (env : Request → HttpResponse)
    (now : DT) (name : String) (args : List (String × JVal))
    (h : gc = none ∨ ∃ c, gc = some c ∧ truthyO c.access_token = false) :
    handle_call_tool gc env now name args = (notAuthenticatedText, []) := by
  rcases h with h | ⟨c, rfl, hc⟩
  · subst h; rfl
  · simp [handle_call_tool, hc]

/-- C3 (witness): the theorem applied at the no-client state and a concrete
tool name. -/
theorem C3_witness :
    handle_call_tool none envEmptyOk now0 "get_emails" [] = (notAuthenticatedText, []) :=
  C3_unauthenticated none envEmptyOk now0 "get_emails" [] (Or.inl rfl)

/-! ## C4 — values above a declared maximum are clamped -/

/-- C4: for each numeric parameter with a declared maximum (`get_emails`
count ≤ 50, `get_calendar_events` days ≤ 30 and count ≤ 50), supplying any
value at or above the maximum yields exactly the same dispatcher behavior —
the same outbound remote call and the same rendered result — as supplying
the maximum itself: the value is clamped by `min`, not rejected. -/
theorem C4_clamped (c : GraphClient) (env : Request → HttpResponse) (now : DT)
    (v d : Int) (rest : List (String × JVal)) :
    ((50 : Int) ≤ v →
      handle_call_tool (some c) env now "get_emails" (("count", .num v) :: rest) =
      handle_call_tool (some c) env now "get_emails" (("count", .num 50) :: rest)) ∧
    ((30 : Int) ≤ d →
      handle_call_tool (some c) env now "get_calendar_events" (("days", .num d) :: rest) =
      handle_call_tool (some c) env now "get_calendar_events" (("days", .num 30) :: rest)) ∧
    ((50 : Int) ≤ v →
      handle_call_tool (some c) env now "get_calendar_events" (("count", .num v) :: rest) =
      handle_call_tool (some c) env now "get_calendar_events" (("count", .num 50) :: rest)) := by
  refine ⟨fun h => ?_, fun h => ?_, fun h => ?_⟩
  · have hmin : min v (50 : Int) = 50 := min_eq_right h
    simp [handle_call_tool, dispatchTool, argGetD, List.lookup, asPyInt, hmin]
  · have hmin : min d (30 : Int) = 30 := min_eq_right h
    simp [handle_call_tool, dispatchTool, argGetD, List.lookup, asPyInt, hmin]
  · have hmin : min v (50 : Int) = 50 := min_eq_right h
    simp [handle_call_tool, dispatchTool, argGetD, List.lookup, asPyInt, hmin]

/-- C4 (witness): the theorem applied at `count = 500` / `days = 31` against
a concrete authenticated client and oracle: in particular
`invoke("get_emails", count 500)` equals `invoke("get_emails", count 50)`. -/
theorem C4_witness :
    handle_call_tool (some gcTok) envEmptyOk now0 "get_emails" [("count", .num 500)] =
      handle_call_tool (some gcTok) envEmptyOk now0 "get_emails" [("count", .num 50)] ∧
    handle_call_tool (some gcTok) envEmptyOk now0 "get_calendar_events" [("days", .num 31)] =
      handle_call_tool (some gcTok) envEmptyOk now0 "get_calendar_events" [("days", .num 30)] :=
  ⟨(C4_clamped gcTok envEmptyOk now0 500 31 []).1 (by decide),
   (C4_clamped gcTok envEmptyOk now0 500 31 []).2.1 (by decide)⟩

/-! ## C10 — no lower bound on numeric parameters; defaults only when absent -/

/-- A (date)string with a trailing `Z` is never empty, so the truthiness
test guarding the `$filter` of `get_events` always passes. -/
theorem append_Z_ne_empty (s : String) : s ++ "Z" ≠ "" := by
  intro h
  have h2 := congrArg String.length h
  simp [String.length_append] at h2
  exact absurd h2.2 (by decide)

/-- Appending-fold equals map: the shape of the result-collecting loop of
`bulk_mark_read`. -/
theorem foldl_append_eq_map {α β : Type} (f : α → β) :
    ∀ (l : List α) (acc : List β),
      l.foldl (fun r x => r ++ [f x]) acc = acc ++ l.map f := by
  intro l
  induction l with
  | nil => intro acc; simp
  | cons x xs ih => intro acc; simp [ih]

/-- Each per-item record carries exactly the input id, whether the single
mark succeeded or failed. -/
theorem bulkStep_id (token : Option JVal) (env : Request → HttpResponse)
    (msg_id : String) : (bulkStep token env msg_id).id = msg_id := by
  unfold bulkStep
  cases (mark_as_read token env msg_id).1 <;> rfl

/-- C9: `bulk_mark_read` is the sequential ordered fold that maps each input
id to its own outcome record: the output is exactly the per-id map (so a
failure on one item never aborts the rest), its length always equals the
input length, the i-th record's id is the i-th input id, and the records
produced for a batch's tail are the same whatever ids (however failing)
preceded it. -/
theorem C9_bulk_fold (token : Option JVal) (env : Request → HttpResponse)
    (ids : List String) :
    bulk_mark_read token env ids = ids.map (bulkStep token env) ∧
    (bulk_mark_read token env ids).length = ids.length ∧
    (∀ i (h1 : i < (bulk_mark_read token env ids).length) (h2 : i < ids.length),
      ((bulk_mark_read token env ids).get ⟨i, h1⟩).id = ids.get ⟨i, h2⟩) ∧
    (∀ ids2 : List String,
      bulk_mark_read token env (ids ++ ids2) =
        bulk_mark_read token env ids ++ bulk_mark_read token env ids2) := by
  have hmap : ∀ l : List String,
      bulk_mark_read token env l = l.map (bulkStep token env) := by
    intro l
    unfold bulk_mark_read
    simpa using foldl_append_eq_map (bulkStep token env) l []
  refine ⟨hmap ids, by simp [hmap], ?_, ?_⟩
  · intro i h1 h2
    simp only [hmap, List.get_eq_getElem, List.getElem_map, bulkStep_id]
  · intro ids2
    simp [hmap]

/-- C9 (witness): the theorem applied to a concrete three-id batch against
an oracle that fails every request (404): all three items still get their
record, in order. -/
theorem C9_witness :
    ((bulk_mark_read (some (.str "tok"))
        (fun _ => { status := 404, text := "nf", content := none })
        ["a", "b", "c"]).length = 3 ∧
     ((bulk_mark_read (some (.str "tok"))
        (fun _ => { status := 404, text := "nf", content := none })
        ["a", "b", "c"]).get ⟨1, by decide⟩).id = "b") := by
  refine ⟨?_, ?_⟩
  · exact (C9_bulk_fold (some (.str "tok"))
      (fun _ => { status := 404, text := "nf", content := none }) ["a", "b", "c"]).2.1
  · exact (C9_bulk_fold (some (.str "tok"))
      (fun _ => { status := 404, text := "nf", content := none }) ["a", "b", "c"]).2.2.1
      1 (by decide) (by decide)

/-! ## C8 — empty results render a distinct criteria-echoing message -/

/-- C8: against an oracle whose `value` list is empty, a searched
`get_emails` renders the no-emails message echoing the search term (a
search-less call renders the plain no-emails message), and
`get_calendar_events` renders the no-events message echoing the (clamped)
day range — never an empty success block. The calendar conjunct presupposes
the clamped span keeps `now + timedelta` inside `datetime`'s years 1..9999,
i.e. that a result is obtained at all (otherwise the OverflowError path of
src/outlook_mcp.py:385 fires and an error text is rendered instead). -/
theorem C8_empty_results (c : GraphClient) (now : DT) (s : String) (d : Int)
    (e : DT) (hauth : truthyO c.access_token = true) (hs : s ≠ "")
    (he : addDays now (min d 30) = some e) :
    ((handle_call_tool (some c) envEmptyOk now "get_emails" [("search", .str s)]).1 =
      "📧 No emails found matching \x27" ++ s ++ "\x27.") ∧
    ((handle_call_tool (some c) envEmptyOk now "get_emails" []).1 =
      "📧 No emails found.") ∧
    ((handle_call_tool (some c) envEmptyOk now "get_calendar_events" [("days", .num d)]).1 =
      "📅 No events found in the next " ++ toString (min d 30) ++ " days.") := by
  refine ⟨?_, ?_, ?_⟩
  · simp [handle_call_tool, dispatchTool, argGetD, List.lookup, asPyInt, hauth, truthy, hs,
      GraphClient.search_messages, GraphClient.get_messages, makeRequest, envEmptyOk,
      emailsText, dictGetO, dictGet, pyStr]
    have h1 : "📧 No emails found" ++ " matching \x27" = "📧 No emails found matching \x27" := rfl
    have h2 : ("\x27" : String) ++ "." = "\x27." := rfl
    rw [← h1, ← h2]
    simp only [String.append_assoc]
  · simp [handle_call_tool, dispatchTool, argGetD, List.lookup, asPyInt, hauth, truthy,
      GraphClient.get_messages, makeRequest, envEmptyOk,
      emailsText, dictGetO, dictGet]
  · simp [handle_call_tool, dispatchTool, argGetD, List.lookup, asPyInt, hauth, truthy,
      he, GraphClient.get_events, makeRequest, envEmptyOk, append_Z_ne_empty,
      eventsText, dictGetO, dictGet]

/-- C8 (witness): the theorem applied at the concrete search term
`quarterly review` (and a 7-day range, for which the `now + timedelta`
addition stays in range). -/
theorem C8_witness :
    (handle_call_tool (some gcTok) envEmptyOk now0 "get_emails"
      [("search", .str "quarterly review")]).1 =
      "📧 No emails found matching \x27" ++ "quarterly review" ++ "\x27." :=
  (C8_empty_results gcTok now0 "quarterly review" 7 ⟨2025, 8, 21, 14, 0, 0⟩ rfl
    (by decide) (by rfl)).1

/-! ## C7 — remote failures are rendered, never raised; 204 is empty success -/

/-- C7: with a remote side answering any non-success status (not
200/201/202/204) — e.g. 404 with body `{"error":"not found"}` — every tool's
invocation returns the rendered error text naming the attempted tool and
containing the status code, as a normal result of the total dispatcher (no
exception escapes the boundary); and a 204 no-content response makes the
remote-call result the empty value `None`, not an error. The
`get_calendar_events` conjunct presupposes that the clock plus the default
7-day span stays inside `datetime`'s representable years, i.e. that the
remote call is reached at all (otherwise the OverflowError path of
src/outlook_mcp.py:385 fires before any request). -/
theorem C7_remote_failure (c : GraphClient) (now : DT) (resp : HttpResponse)
    (e7 : DT) (hauth : truthyO c.access_token = true)
    (h200 : resp.status ≠ 200) (h201 : resp.status ≠ 201)
    (h202 : resp.status ≠ 202) (h204 : resp.status ≠ 204)
    (hnow : addDays now 7 = some e7) :
    ((handle_call_tool (some c) (fun _ => resp) now "get_user_info" []).1 =
      "❌ Error executing get_user_info: API request failed: " ++
        toString resp.status ++ " - " ++ resp.text) ∧
    ((handle_call_tool (some c) (fun _ => resp) now "get_emails" []).1 =
      "❌ Error executing get_emails: API request failed: " ++
        toString resp.status ++ " - " ++ resp.text) ∧
    ((handle_call_tool (some c) (fun _ => resp) now "get_calendar_events" []).1 =
      "❌ Error executing get_calendar_events: API request failed: " ++
        toString resp.status ++ " - " ++ resp.text) ∧
    ((handle_call_tool (some c) (fun _ => resp) now "create_calendar_event"
        [("subject", .str "S"), ("start_time", .str "2025-08-14T14:00:00"),
         ("end_time", .str "2025-08-14T15:00:00")]).1 =
      "❌ Error executing create_calendar_event: API request failed: " ++
        toString resp.status ++ " - " ++ resp.text) ∧
    (∀ (tok : Option JVal) (m e : String) (d : Option JVal)
        (p : List (String × String)) (resp2 : HttpResponse),
      truthyO tok = true → resp2.status = 204 → resp2.content = none →
      (makeRequest tok (fun _ => resp2) m e d p).1 = .ok none) := by
  refine ⟨?_, ?_, ?_, ?_, ?_⟩
  · simp [handle_call_tool, dispatchTool, GraphClient.get_user_info, makeRequest, hauth,
      h200, h201, h202, h204, userText, String.append_assoc]
    have hm : "❌ Error executing get_user_info: " ++ "API request failed: " =
      "❌ Error executing get_user_info: API request failed: " := rfl
    rw [← hm, String.append_assoc]
  · simp [handle_call_tool, dispatchTool, argGetD, List.lookup, asPyInt, truthy,
      GraphClient.get_messages, makeRequest, hauth,
      h200, h201, h202, h204, emailsText, String.append_assoc]
    have hm : "❌ Error executing get_emails: " ++ "API request failed: " =
      "❌ Error executing get_emails: API request failed: " := rfl
    rw [← hm, String.append_assoc]
  · simp [handle_call_tool, dispatchTool, argGetD, List.lookup, asPyInt, truthy,
      hnow, GraphClient.get_events, makeRequest, hauth, append_Z_ne_empty,
      h200, h201, h202, h204, eventsText, String.append_assoc]
    have hm : "❌ Error executing get_calendar_events: " ++ "API request failed: " =
      "❌ Error executing get_calendar_events: API request failed: " := rfl
    rw [← hm, String.append_assoc]
  · have hp : parseDatetime (removeZ "2025-08-14T14:00:00") =
      some ⟨2025, 8, 14, 14, 0, 0⟩ := by rfl
    have hq : parseDatetime (removeZ "2025-08-14T15:00:00") =
      some ⟨2025, 8, 14, 15, 0, 0⟩ := by rfl
    simp [handle_call_tool, dispatchTool, argGet, argGetD, argRequired, List.lookup,
      GraphClient.create_event, makeRequest, hauth, hp, hq, truthy,
      show truthyO none = false from rfl,
      h200, h201, h202, h204, createdText, String.append_assoc]
    have hm : "❌ Error executing create_calendar_event: " ++ "API request failed: " =
      "❌ Error executing create_calendar_event: API request failed: " := rfl
    rw [← hm, String.append_assoc]
  · intro tok m e d p resp2 htok h204b hcont
    simp [makeRequest, htok, h204b, hcont]

/-- C7 (witness): the theorem applied at the concrete 404 response with body
`{"error":"not found"}`: the rendered text for `get_user_info` is the error
line containing `404`, and a 204 empty response yields `Except.ok none`. -/
theorem C7_witness :
    ((handle_call_tool (some gcTok)
        (fun _ => { status := 404, text := "\x7b\"error\":\"not found\"\x7d", content := none })
        now0 "get_user_info" []).1 =
      "❌ Error executing get_user_info: API request failed: " ++
        toString (404 : Nat) ++ " - " ++ "\x7b\"error\":\"not found\"\x7d") ∧
    ((makeRequest (some (.str "tok"))
        (fun _ => { status := 204, text := "", content := none })
        "GET" "/me" none []).1 = .ok none) :=
  ⟨(C7_remote_failure gcTok now0
      { status := 404, text := "\x7b\"error\":\"not found\"\x7d", content := none }
      ⟨2025, 8, 21, 14, 0, 0⟩
      rfl (by decide) (by decide) (by decide) (by decide) (by rfl)).1,
   (C7_remote_failure gcTok now0
      { status := 404, text := "\x7b\"error\":\"not found\"\x7d", content := none }
      ⟨2025, 8, 21, 14, 0, 0⟩
      rfl (by decide) (by decide) (by decide) (by decide) (by rfl)).2.2.2.2
      (some (.str "tok")) "GET" "/me" none []
      { status := 204, text := "", content := none } rfl rfl rfl⟩

/-! ## Datetime parsing lemmas for C5 and C6 -/

/-- Digit characters are recognised by the digit test. -/
theorem isDig_dchar (n : Nat) (h : n ≤ 9) : isDig (dchar n) = true := by
  interval_cases n <;> decide

/-- Digit characters decode to their value. -/
theorem digVal_dchar (n : Nat) (h : n ≤ 9) : digVal (dchar n) = n := by
  interval_cases n <;> decide

/-- No digit character is the letter stripped by `removeZ`. -/
theorem dchar_ne_Z (n : Nat) : dchar n ≠ 'Z' := by
  rcases Nat.lt_or_ge n 10 with h | h
  · interval_cases n <;> decide
  · unfold dchar
    rw [List.getD_eq_default]
    · decide
    · simpa using h

/-- A format literal consumes its own character. -/
theorem parseLit_cons (ch : Char) (rest : List Char) :
    parseLit ch (ch :: rest) = some rest := by
  simp [parseLit]

/-- A 1-2 digit directive reads back a zero-padded in-range value exactly. -/
theorem parseNum2_pad2 (lo2 hi2 lo1 m : Nat) (rest : List Char)
    (h1 : lo2 ≤ m) (h2 : m ≤ hi2) (h99 : hi2 ≤ 99) :
    parseNum2 lo2 hi2 lo1 (pad2 m ++ rest) = some (m, rest) := by
  have hd1 : m / 10 ≤ 9 := by omega
  have hd2 : m % 10 ≤ 9 := by omega
  have hv : 10 * (m / 10) + m % 10 = m := by omega
  simp [pad2, parseNum2, isDig_dchar _ hd1, isDig_dchar _ hd2,
    digVal_dchar _ hd1, digVal_dchar _ hd2, hv, h1, h2]

/-- The end-of-input variant of `parseNum2_pad2`. -/
theorem parseNum2_pad2_nil (lo2 hi2 lo1 m : Nat)
    (h1 : lo2 ≤ m) (h2 : m ≤ hi2) (h99 : hi2 ≤ 99) :
    parseNum2 lo2 hi2 lo1 (pad2 m) = some (m, []) := by
  simpa using parseNum2_pad2 lo2 hi2 lo1 m [] h1 h2 h99

/-- The `%Y` directive reads back a four-digit year exactly. -/
theorem parseYear4_pad4 (y : Nat) (rest : List Char) (h : y ≤ 9999) :
    parseYear4 (pad4 y ++ rest) = some (y, rest) := by
  have ha : y / 1000 ≤ 9 := by omega
  have hb : y / 100 % 10 ≤ 9 := by omega
  have hc : y / 10 % 10 ≤ 9 := by omega
  have hd : y % 10 ≤ 9 := by omega
  have hv : 1000 * (y / 1000) + 100 * (y / 100 % 10) + 10 * (y / 10 % 10) + y % 10 = y := by
    omega
  simp [pad4, parseYear4, isDig_dchar _ ha, isDig_dchar _ hb, isDig_dchar _ hc,
    isDig_dchar _ hd, digVal_dchar _ ha, digVal_dchar _ hb, digVal_dchar _ hc,
    digVal_dchar _ hd, hv]

/-- Every month has at most 31 days. -/
theorem daysInMonth_le (y m : Nat) : daysInMonth y m ≤ 31 := by
  unfold daysInMonth
  split_ifs <;> omega

/-- The seconds-precision `T`-separated format reads back its own rendering
of any constructor-valid instant. -/
theorem strptime_write1 (dt : DT) (h : validDT dt) :
    strptime 'T' true (writeFmtSecT dt) = some dt := by
  obtain ⟨h1, h2, h3, h4, h5, h6, h7, h8, h9⟩ := id h
  have hday : dt.day ≤ 31 := le_trans h6 (daysInMonth_le _ _)
  simp [strptime, writeFmtSecT, isoformat, parseFormat,
    parseYear4_pad4 _ _ h2, parseLit_cons,
    parseNum2_pad2 1 12 1 dt.month _ h3 h4 (by omega),
    parseNum2_pad2 1 31 1 dt.day _ h5 hday (by omega),
    parseNum2_pad2 0 23 0 dt.hour _ (Nat.zero_le _) h7 (by omega),
    parseNum2_pad2 0 59 0 dt.minute _ (Nat.zero_le _) h8 (by omega),
    parseNum2_pad2_nil 0 61 0 dt.second (Nat.zero_le _) (by omega) (by omega),
    mkDatetime, h]

/-- The space-separated format reads back its own rendering. -/
theorem strptime_write2 (dt : DT) (h : validDT dt) :
    strptime ' ' true (writeFmtSecSp dt) = some dt := by
  obtain ⟨h1, h2, h3, h4, h5, h6, h7, h8, h9⟩ := id h
  have hday : dt.day ≤ 31 := le_trans h6 (daysInMonth_le _ _)
  simp [strptime, writeFmtSecSp, parseFormat,
    parseYear4_pad4 _ _ h2, parseLit_cons,
    parseNum2_pad2 1 12 1 dt.month _ h3 h4 (by omega),
    parseNum2_pad2 1 31 1 dt.day _ h5 hday (by omega),
    parseNum2_pad2 0 23 0 dt.hour _ (Nat.zero_le _) h7 (by omega),
    parseNum2_pad2 0 59 0 dt.minute _ (Nat.zero_le _) h8 (by omega),
    parseNum2_pad2_nil 0 61 0 dt.second (Nat.zero_le _) (by omega) (by omega),
    mkDatetime, h]

/-- The minute-precision format reads back its own rendering of a
seconds-zero instant. -/
theorem strptime_write3 (dt : DT) (h : validDT dt) (h0 : dt.second = 0) :
    strptime 'T' false (writeFmtMin dt) = some dt := by
  obtain ⟨h1, h2, h3, h4, h5, h6, h7, h8, h9⟩ := id h
  have hday : dt.day ≤ 31 := le_trans h6 (daysInMonth_le _ _)
  have heta : dt = ⟨dt.year, dt.month, dt.day, dt.hour, dt.minute, 0⟩ := by
    cases dt; simp_all
  simp [strptime, writeFmtMin, parseFormat,
    parseYear4_pad4 _ _ h2, parseLit_cons,
    parseNum2_pad2 1 12 1 dt.month _ h3 h4 (by omega),
    parseNum2_pad2 1 31 1 dt.day _ h5 hday (by omega),
    parseNum2_pad2 0 23 0 dt.hour _ (Nat.zero_le _) h7 (by omega),
    parseNum2_pad2_nil 0 59 0 dt.minute (Nat.zero_le _) h8 (by omega),
    mkDatetime]
  rw [← heta]
  simp [h]

/-- The first format rejects a space-separated rendering (the `T` literal
fails on the space), so ordering matters for which format fires. -/
theorem strptime1_fails_sp (dt : DT) (h : validDT dt) :
    strptime 'T' true (writeFmtSecSp dt) = none := by
  obtain ⟨h1, h2, h3, h4, h5, h6, h7, h8, h9⟩ := id h
  have hday : dt.day ≤ 31 := le_trans h6 (daysInMonth_le _ _)
  simp [strptime, writeFmtSecSp, parseFormat,
    parseYear4_pad4 _ _ h2, parseLit_cons,
    parseNum2_pad2 1 12 1 dt.month _ h3 h4 (by omega),
    parseNum2_pad2 1 31 1 dt.day _ h5 hday (by omega),
    parseLit]

/-- The first format rejects a minute-precision rendering (input ends before
the seconds separator). -/
theorem strptime1_fails_min (dt : DT) (h : validDT dt) :
    strptime 'T' true (writeFmtMin dt) = none := by
  obtain ⟨h1, h2, h3, h4, h5, h6, h7, h8, h9⟩ := id h
  have hday : dt.day ≤ 31 := le_trans h6 (daysInMonth_le _ _)
  simp [strptime, writeFmtMin, parseFormat,
    parseYear4_pad4 _ _ h2, parseLit_cons,
    parseNum2_pad2 1 12 1 dt.month _ h3 h4 (by omega),
    parseNum2_pad2 1 31 1 dt.day _ h5 hday (by omega),
    parseNum2_pad2 0 23 0 dt.hour _ (Nat.zero_le _) h7 (by omega),
    parseNum2_pad2_nil 0 59 0 dt.minute (Nat.zero_le _) h8 (by omega),
    parseLit]

/-- The second format rejects a minute-precision rendering (the space
literal fails on the `T`). -/
theorem strptime2_fails_min (dt : DT) (h : validDT dt) :
    strptime ' ' true (writeFmtMin dt) = none := by
  obtain ⟨h1, h2, h3, h4, h5, h6, h7, h8, h9⟩ := id h
  have hday : dt.day ≤ 31 := le_trans h6 (daysInMonth_le _ _)
  simp [strptime, writeFmtMin, parseFormat,
    parseYear4_pad4 _ _ h2, parseLit_cons,
    parseNum2_pad2 1 12 1 dt.month _ h3 h4 (by omega),
    parseNum2_pad2 1 31 1 dt.day _ h5 hday (by omega),
    parseLit]

/-- Removing `Z` characters leaves a `Z`-free string unchanged. -/
theorem removeZ_of_noZ (l : List Char) (h : ∀ c ∈ l, c ≠ 'Z') :
    removeZ (String.mk l) = String.mk l := by
  unfold removeZ
  congr 1
  apply List.filter_eq_self.mpr
  intro a ha
  simpa using h a ha

/-- The seconds-precision `T`-rendering contains no `Z`. -/
theorem removeZ_write1 (dt : DT) : removeZ (writeFmtSecT dt) = writeFmtSecT dt := by
  apply removeZ_of_noZ
  intro c hc
  simp [pad4, pad2] at hc
  casesm* _ ∨ _ <;> subst_vars <;> first | exact dchar_ne_Z _ | decide

/-- The space-rendering contains no `Z`. -/
theorem removeZ_write2 (dt : DT) : removeZ (writeFmtSecSp dt) = writeFmtSecSp dt := by
  apply removeZ_of_noZ
  intro c hc
  simp [pad4, pad2] at hc
  casesm* _ ∨ _ <;> subst_vars <;> first | exact dchar_ne_Z _ | decide

/-- The minute-precision rendering contains no `Z`. -/
theorem removeZ_write3 (dt : DT) : removeZ (writeFmtMin dt) = writeFmtMin dt := by
  apply removeZ_of_noZ
  intro c hc
  simp [pad4, pad2] at hc
  casesm* _ ∨ _ <;> subst_vars <;> first | exact dchar_ne_Z _ | decide

/-- Parsing normalization: the source's ordered-format loop maps all three
renderings of a constructor-valid, seconds-zero instant to that same
instant (the first format that parses wins: the `T`-seconds rendering is
taken by format 1, the space rendering falls through to format 2, the
minute rendering falls through to format 3). -/
theorem parseDatetime_writes (dt : DT) (h : validDT dt) (h0 : dt.second = 0) :
    parseDatetime (removeZ (writeFmtSecT dt)) = some dt ∧
    parseDatetime (removeZ (writeFmtSecSp dt)) = some dt ∧
    parseDatetime (removeZ (writeFmtMin dt)) = some dt := by
  refine ⟨?_, ?_, ?_⟩
  · rw [removeZ_write1]
    simp [parseDatetime, strptime_write1 dt h]
  · rw [removeZ_write2]
    simp [parseDatetime, strptime1_fails_sp dt h, strptime_write2 dt h]
  · rw [removeZ_write3]
    simp [parseDatetime, strptime1_fails_min dt h, strptime2_fails_min dt h,
      strptime_write3 dt h h0]

/-! ## C5 — the three accepted formats produce identical outbound requests -/

/-- C5: for any instant expressible in all three accepted formats (i.e. any
constructor-valid instant with seconds zero, since the minute-precision
format cannot express non-zero seconds), invoking `create_calendar_event`
with the start and end instants written in any of the three formats yields
exactly the same dispatcher behavior — in particular the identical outbound
`POST /me/events` body — as writing both in the canonical seconds-precision
format; the first format of the ordered list that parses is the one that
fires (see `parseDatetime_writes`). -/
theorem C5_format_invariance (c : GraphClient) (env : Request → HttpResponse)
    (now : DT) (sub : JVal) (dtS dtE : DT) (f g : DT → String)
    (hauth : truthyO c.access_token = true)
    (hS : validDT dtS) (hE : validDT dtE)
    (hS0 : dtS.second = 0) (hE0 : dtE.second = 0)
    (hf : f = writeFmtSecT ∨ f = writeFmtSecSp ∨ f = writeFmtMin)
    (hg : g = writeFmtSecT ∨ g = writeFmtSecSp ∨ g = writeFmtMin) :
    handle_call_tool (some c) env now "create_calendar_event"
      [("subject", sub), ("start_time", .str (f dtS)), ("end_time", .str (g dtE))] =
    handle_call_tool (some c) env now "create_calendar_event"
      [("subject", sub), ("start_time", .str (writeFmtSecT dtS)),
       ("end_time", .str (writeFmtSecT dtE))] := by
  have hfS : parseDatetime (removeZ (f dtS)) = some dtS := by
    rcases hf with rfl | rfl | rfl
    · exact (parseDatetime_writes dtS hS hS0).1
    · exact (parseDatetime_writes dtS hS hS0).2.1
    · exact (parseDatetime_writes dtS hS hS0).2.2
  have hgE : parseDatetime (removeZ (g dtE)) = some dtE := by
    rcases hg with rfl | rfl | rfl
    · exact (parseDatetime_writes dtE hE hE0).1
    · exact (parseDatetime_writes dtE hE hE0).2.1
    · exact (parseDatetime_writes dtE hE hE0).2.2
  simp [handle_call_tool, dispatchTool, argRequired, argGet, List.lookup, hauth,
    hfS, hgE, (parseDatetime_writes dtS hS hS0).1, (parseDatetime_writes dtE hE hE0).1]

/-- C5 (witness): the theorem at the concrete instant 2025-08-14 14:00(:00)
written space-separated for the start and minute-precision for the end,
against a concrete authenticated client. -/
theorem C5_witness :
    handle_call_tool (some gcTok) envEmptyOk now0 "create_calendar_event"
      [("subject", .str "S"),
       ("start_time", .str (writeFmtSecSp ⟨2025, 8, 14, 14, 0, 0⟩)),
       ("end_time", .str (writeFmtMin ⟨2025, 8, 14, 15, 30, 0⟩))] =
    handle_call_tool (some gcTok) envEmptyOk now0 "create_calendar_event"
      [("subject", .str "S"),
       ("start_time", .str (writeFmtSecT ⟨2025, 8, 14, 14, 0, 0⟩)),
       ("end_time", .str (writeFmtSecT ⟨2025, 8, 14, 15, 30, 0⟩))] :=
  C5_format_invariance gcTok envEmptyOk now0 (.str "S")
    ⟨2025, 8, 14, 14, 0, 0⟩ ⟨2025, 8, 14, 15, 30, 0⟩
    writeFmtSecSp writeFmtMin rfl (by decide) (by decide) rfl rfl
    (Or.inr (Or.inl rfl)) (Or.inr (Or.inr rfl))

/-! ## C6 — unparsable date/times are rejected before any remote call -/

